import Mathlib

/-!
# Water-quality backend: shallow embedding and verification

This file embeds the session/batch pipeline of the water-quality backend
(`src/src/index.ts`, the sessionful variant: `BATCH_SIZE`, `/ingest`,
`/session/start`, `/session/reset`, `/analyze-water`) together with the
table-driven classifier of the standalone variant (`FILTRATION_RULES`,
`selectFiltration`) and the windowed variant's guarded `computeAverage`.

JavaScript numbers are modelled as exact rationals.  The one place `NaN`
can arise in the embedded code is division by a zero array length in
`computeAverage`; a possibly-NaN number is modelled as `Option ℚ`
(`none` = NaN), and the comparison operators on it return `false` on
`none`, exactly as every JS comparison involving NaN is false.
`Number.prototype.toFixed` and `Math.round` both round halves toward
+∞, which is Mathlib's `round`.
-/

namespace WaterQuality

/-- `BATCH_SIZE` from the config section of the sessionful variant. -/
def BATCH_SIZE : Nat := 10

/-- `SensorReading` record: `{ph, turbidity, tds, timestamp}`. -/
structure SensorReading where
  ph : ℚ
  turbidity : ℚ
  tds : ℚ
  timestamp : ℤ
  deriving Repr, DecidableEq

/-- `SessionState` record of the sessionful variant:
`{active, completed, startedAt}`. -/
structure SessionState where
  active : Bool
  completed : Bool
  startedAt : Option ℤ
  deriving Repr, DecidableEq

/-- The module-level mutable state the session endpoints read and write:
`sessionReadings` and `session`.  (The tank-level state is independent of
every claim and is not modelled.) -/
structure ServerState where
  sessionReadings : List SensorReading
  session : SessionState
  deriving Repr, DecidableEq

/-- The state at process start. -/
def initialState : ServerState :=
  { sessionReadings := [], session := { active := false, completed := false, startedAt := none } }

/-! ## JS-number helpers -/

/-- JS division by an array length: `0 / 0` is NaN (`none`). -/
def jsDiv (a : ℚ) (n : Nat) : Option ℚ :=
  if n = 0 then none else some (a / n)

/-- JS `x > b` where `x` may be NaN: NaN comparisons are false. -/
def jsGt (a : Option ℚ) (b : ℚ) : Bool :=
  match a with
  | none => false
  | some x => decide (b < x)

/-- JS `x >= b` where `x` may be NaN. -/
def jsGe (a : Option ℚ) (b : ℚ) : Bool :=
  match a with
  | none => false
  | some x => decide (b ≤ x)

/-- JS `x < b` where `x` may be NaN. -/
def jsLt (a : Option ℚ) (b : ℚ) : Bool :=
  match a with
  | none => false
  | some x => decide (x < b)

/-- `+(q).toFixed(2)`: round to 2 decimal places, halves toward +∞
(ECMAScript picks the larger candidate on ties, as does `round`). -/
def round2 (q : ℚ) : ℚ :=
  (round (100 * q) : ℤ) / 100

/-! ## Batch aggregation (`computeAverage`, lines 278-294) -/

/-- Accumulator of the `readings.reduce` call in `computeAverage`. -/
structure ReadingSums where
  ph : ℚ
  turbidity : ℚ
  tds : ℚ
  deriving Repr, DecidableEq

/-- The reducer body of `computeAverage`. -/
def sumStep (acc : ReadingSums) (r : SensorReading) : ReadingSums :=
  { ph := acc.ph + r.ph, turbidity := acc.turbidity + r.turbidity, tds := acc.tds + r.tds }

/-- The record `computeAverage` returns; each field is NaN (`none`) when
the batch was empty. -/
structure BatchAverage where
  ph : Option ℚ
  turbidity : Option ℚ
  tds : Option ℚ
  deriving Repr, DecidableEq

/-- `computeAverage` of the sessionful variant (lines 278-294).  There is
no emptiness guard: on an empty batch every field is `0 / 0` = NaN. -/
def computeAverage (readings : List SensorReading) : BatchAverage :=
  let sum := readings.foldl sumStep { ph := 0, turbidity := 0, tds := 0 }
  { ph := (jsDiv sum.ph readings.length).map round2
    turbidity := (jsDiv sum.turbidity readings.length).map round2
    tds := (jsDiv sum.tds readings.length).map (fun q => ((round q : ℤ) : ℚ)) }

/-! ## Classifiers -/

/-- `isReusable` (lines 299-304): pH window, turbidity and tds caps. -/
def isReusable (ph turbidity tds : Option ℚ) : Bool :=
  if jsLt ph (13/2) || jsGt ph (17/2) then false
  else if jsGt turbidity 10 then false
  else if jsGt tds 1000 then false
  else true

/-- `filtrationBracket` (lines 309-315): ordered threshold checks, with
an inclusive floor for F4. -/
def filtrationBracket (turbidity tds : Option ℚ) : String :=
  if jsGt tds 1500 then "F5"
  else if jsGe tds 1000 then "F4"
  else if jsGt turbidity 30 then "F3"
  else if jsGt turbidity 10 then "F2"
  else "F1"

/-! ## HTTP endpoints of the sessionful variant

Each handler is a function from the shared state (plus the well-typed
request fields and the current clock) to its JSON response and the new
state.  The `400 Invalid sensor data` type-check path never reaches the
session logic, so the handlers below take already-well-typed numbers. -/

/-- Response body of `POST /ingest`. -/
structure IngestResponse where
  status : String
  sessionActive : Bool
  sessionCount : Nat
  deriving Repr, DecidableEq

/-- `POST /ingest` (lines 327-352): push the reading onto the session
batch whenever the session is active and not completed; always answer
`received`.  There is no batch-capacity check. -/
def ingest (s : ServerState) (ph turbidity tds : ℚ) (now : ℤ) :
    IngestResponse × ServerState :=
  let s' :=
    if s.session.active && !s.session.completed then
      { s with sessionReadings :=
          s.sessionReadings ++ [{ ph := ph, turbidity := turbidity, tds := tds, timestamp := now }] }
    else s
  ({ status := "received"
     sessionActive := s'.session.active
     sessionCount := s'.sessionReadings.length }, s')

/-- `POST /session/start` (lines 357-367): activate the session and wipe
the batch. -/
def startSession (s : ServerState) (now : ℤ) : ServerState :=
  { s with
    sessionReadings := []
    session := { active := true, completed := false, startedAt := some now } }

/-- `POST /session/reset` (lines 372-381): deactivate and wipe. -/
def resetSession (s : ServerState) : ServerState :=
  { s with
    sessionReadings := []
    session := { active := false, completed := false, startedAt := none } }

/-- Success body of `POST /analyze-water`. -/
structure AnalyzeBody where
  reusable : String
  tank : String
  filtrationBracket : String
  average : BatchAverage
  pumpCommand : String
  deriving Repr, DecidableEq

/-- Outcome of `POST /analyze-water`: the two 400 error bodies or the
200 success body. -/
inductive AnalyzeResult where
  | errNotStarted : AnalyzeResult
  | errInsufficient (required : Nat) (current : Nat) : AnalyzeResult
  | ok (body : AnalyzeBody) : AnalyzeResult
  deriving Repr, DecidableEq

/-- `POST /analyze-water` (lines 397-437): guard on `session.active`,
then on the batch size; on success average the batch, decide
reusability, mark the session completed and inactive, and answer with
the decision.  The reusable branch hard-codes bracket F1. -/
def analyzeWater (s : ServerState) : AnalyzeResult × ServerState :=
  if !s.session.active then (.errNotStarted, s)
  else if s.sessionReadings.length < BATCH_SIZE then
    (.errInsufficient BATCH_SIZE s.sessionReadings.length, s)
  else
    let avg := computeAverage s.sessionReadings
    let reusable := isReusable avg.ph avg.turbidity avg.tds
    let s' := { s with session := { s.session with completed := true, active := false } }
    if reusable then
      (.ok { reusable := "YES"
             tank := "Tank A"
             filtrationBracket := "F1"
             average := avg
             pumpCommand := "PUMP_A_ON" }, s')
    else
      (.ok { reusable := "NO"
             tank := "Tank B"
             filtrationBracket := filtrationBracket avg.turbidity avg.tds
             average := avg
             pumpCommand := "PUMP_B_ON" }, s')

/-- `true` on the 200 branch of `analyzeWater`. -/
def AnalyzeResult.isOk : AnalyzeResult → Bool
  | .ok _ => true
  | _ => false

/-- The `filtrationBracket` field of a 200 response. -/
def AnalyzeResult.reportedBracket : AnalyzeResult → Option String
  | .ok b => some b.filtrationBracket
  | _ => none

/-- The `reusable` field of a 200 response. -/
def AnalyzeResult.reportedReusable : AnalyzeResult → Option String
  | .ok b => some b.reusable
  | _ => none

/-- The `tank` field of a 200 response. -/
def AnalyzeResult.reportedTank : AnalyzeResult → Option String
  | .ok b => some b.tank
  | _ => none

end WaterQuality

namespace WaterQuality.Windowed

/-!  The windowed variant of the service (lines 1-223 of `index.ts`)
keeps the emptiness guard in its `computeAverage` (lines 47-65): it
returns `null` for an empty batch instead of dividing by zero. -/

/-- Average record of the windowed variant; the guard makes every field
a genuine number, never NaN. -/
structure Avg where
  ph : ℚ
  turbidity : ℚ
  tds : ℤ
  deriving Repr, DecidableEq

/-- `computeAverage` of the windowed variant (lines 47-65):
`if (readings.length === 0) return null;` then the same reduce and
per-field rounding as the sessionful variant. -/
def computeAverage (readings : List SensorReading) : Option Avg :=
  if readings.length = 0 then none
  else
    let sum := readings.foldl sumStep { ph := 0, turbidity := 0, tds := 0 }
    some { ph := round2 (sum.ph / readings.length)
           turbidity := round2 (sum.turbidity / readings.length)
           tds := round (sum.tds / readings.length) }

end WaterQuality.Windowed

namespace WaterQuality.Standalone

/-!  The standalone variant (lines 479-636 of `index.ts`) classifies a
single request with the table `FILTRATION_RULES` scanned in order by
`selectFiltration`.  Its inputs are validated request numbers, so plain
rationals model them. -/

/-- One row of `FILTRATION_RULES`: bracket, method, and the check
`(tds, turbidity) => boolean`. -/
structure FiltrationRule where
  bracket : String
  method : String
  check : ℚ → ℚ → Bool

/-- `FILTRATION_RULES` (lines 504-534).  Note the F4 row checks
`tds > 1000`, strictly. -/
def FILTRATION_RULES : List FiltrationRule :=
  [ { bracket := "F5", method := "Reverse Osmosis (RO)"
      check := fun tds _ => decide (1500 < tds) }
  , { bracket := "F4", method := "Ultrafiltration + Activated Carbon"
      check := fun tds _ => decide (1000 < tds) }
  , { bracket := "F3", method := "Coagulation + Sand Filtration"
      check := fun _ turbidity => decide (30 < turbidity) }
  , { bracket := "F2", method := "Sand + Carbon + Cloth Filtration"
      check := fun _ turbidity => decide (10 < turbidity) }
  , { bracket := "F1", method := "Sand + Activated Carbon"
      check := fun _ _ => true } ]

/-- Result record of `selectFiltration`. -/
structure FiltrationResult where
  bracket : String
  method : String
  deriving Repr, DecidableEq

/-- `selectFiltration` (lines 559-577): first matching rule wins, with
the `UNKNOWN` safety fallback. -/
def selectFiltration (turbidity tds : ℚ) : FiltrationResult :=
  match FILTRATION_RULES.find? (fun rule => rule.check tds turbidity) with
  | some rule => { bracket := rule.bracket, method := rule.method }
  | none => { bracket := "UNKNOWN", method := "Manual inspection required" }

end WaterQuality.Standalone

namespace WaterQuality.Dispatcher

/-- Modelled from the spec: the actuator command enumeration of the
Command Dispatcher (§3, §4.3), which has no implementation under
`src/`. -/
inductive PumpCommand where
  | START_PUMP_A
  | START_PUMP_B
  | START_PUMP_C
  | STOP_ALL
  deriving Repr, DecidableEq

/-- Modelled from the spec: the `PendingCommand` slot (§3) — at most one
outstanding command, with `delivered` separating queued-not-yet-fetched
from fetched-awaiting-acknowledgement. -/
structure PendingCommand where
  command : Option PumpCommand
  delivered : Bool
  deriving Repr, DecidableEq

/-- Modelled from the spec: `fetchCommand()` (§4.3) — if the slot is
empty or already delivered, answer `none` and leave the slot alone;
otherwise answer the command and mark it delivered in the same step. -/
def fetchCommand (p : PendingCommand) : Option PumpCommand × PendingCommand :=
  match p.command with
  | none => (none, p)
  | some c => if p.delivered then (none, p) else (some c, { p with delivered := true })

end WaterQuality.Dispatcher

namespace WaterQuality

/-- A COLLECTING session holding a full batch of ten identical
readings with the given field values. -/
def mkState (p t d : ℚ) : ServerState :=
  { sessionReadings :=
      List.replicate BATCH_SIZE { ph := p, turbidity := t, tds := d, timestamp := 0 }
    session := { active := true, completed := false, startedAt := some 0 } }

/-! ## Helper lemmas -/

/-- The `reduce` in `computeAverage` accumulates the three field sums. -/
theorem foldl_sumStep (l : List SensorReading) (acc : ReadingSums) :
    l.foldl sumStep acc =
      { ph := acc.ph + (l.map SensorReading.ph).sum
        turbidity := acc.turbidity + (l.map SensorReading.turbidity).sum
        tds := acc.tds + (l.map SensorReading.tds).sum } := by
  induction l generalizing acc with
  | nil => simp
  | cons r t ih =>
      simp only [List.foldl_cons, List.map_cons, List.sum_cons, ih, sumStep]
      simp only [ReadingSums.mk.injEq]
      exact ⟨by ring, by ring, by ring⟩

/-- `computeAverage` on a non-empty batch yields the rounded per-field
arithmetic means. -/
theorem computeAverage_eq (readings : List SensorReading) (h : readings ≠ []) :
    computeAverage readings =
      { ph := some (round2 ((readings.map SensorReading.ph).sum / readings.length))
        turbidity := some (round2 ((readings.map SensorReading.turbidity).sum / readings.length))
        tds := some ((round ((readings.map SensorReading.tds).sum / readings.length) : ℤ) : ℚ) } := by
  have hn : readings.length ≠ 0 := by simpa [List.length_eq_zero] using h
  simp [computeAverage, foldl_sumStep, jsDiv, hn]

/-- `computeAverage` of `n` identical readings is that reading, rounded. -/
theorem computeAverage_replicate (r : SensorReading) (n : Nat) (h : n ≠ 0) :
    computeAverage (List.replicate n r) =
      { ph := some (round2 r.ph)
        turbidity := some (round2 r.turbidity)
        tds := some ((round r.tds : ℤ) : ℚ) } := by
  have hq : (n : ℚ) ≠ 0 := Nat.cast_ne_zero.mpr h
  rw [computeAverage_eq _ (fun he => h (by simpa using congrArg List.length he))]
  simp [List.map_replicate, List.sum_replicate, nsmul_eq_mul, mul_div_cancel_left₀ _ hq]

/-- `toFixed(2)` leaves an integer value unchanged. -/
theorem round2_intCast (z : ℤ) : round2 (z : ℚ) = z := by
  unfold round2
  rw [show (100 : ℚ) * z = ((100 * z : ℤ) : ℚ) by push_cast; ring, round_intCast]
  push_cast
  rw [mul_comm]
  exact mul_div_cancel_right₀ _ (by norm_num)

/-- `isReusable` on genuine (non-NaN) numbers, as a proposition. -/
theorem isReusable_iff (p t d : ℚ) :
    isReusable (some p) (some t) (some d) = true ↔
      ((13 : ℚ)/2 ≤ p ∧ p ≤ 17/2 ∧ t ≤ 10 ∧ d ≤ 1000) := by
  simp only [isReusable, jsLt, jsGt, Bool.or_eq_true, decide_eq_true_eq]
  constructor
  · intro h
    split_ifs at h with h1 h2 h3
    push_neg at h1 h2 h3
    exact ⟨h1.1, h1.2, h2, h3⟩
  · rintro ⟨hp1, hp2, ht, hd⟩
    have h1 : ¬(p < 13/2 ∨ 17/2 < p) := by push_neg; exact ⟨hp1, hp2⟩
    rw [if_neg h1, if_neg (not_lt.mpr ht), if_neg (not_lt.mpr hd)]

/-- Analysis with no active session: the first 400 guard fires and the
state is untouched. -/
theorem analyzeWater_not_active (s : ServerState) (h : s.session.active = false) :
    analyzeWater s = (.errNotStarted, s) := by
  simp [analyzeWater, h]

/-- Analysis on a short batch: the second 400 guard fires with the
required and current counts, and the state is untouched. -/
theorem analyzeWater_insufficient (s : ServerState) (ha : s.session.active = true)
    (h : s.sessionReadings.length < BATCH_SIZE) :
    analyzeWater s = (.errInsufficient BATCH_SIZE s.sessionReadings.length, s) := by
  simp [analyzeWater, ha, h]

/-- Successful analysis flips `completed` on and `active` off, keeping
the batch. -/
theorem analyzeWater_state (s : ServerState) (ha : s.session.active = true)
    (hn : BATCH_SIZE ≤ s.sessionReadings.length) :
    (analyzeWater s).2 =
      { s with session := { s.session with completed := true, active := false } } := by
  simp only [analyzeWater, ha, Bool.not_true, Bool.false_eq_true, if_false,
    not_lt.mpr hn, if_false]
  cases hi :
      isReusable (computeAverage s.sessionReadings).ph
        (computeAverage s.sessionReadings).turbidity
        (computeAverage s.sessionReadings).tds <;>
    simp [hi]

/-- Successful analysis answers 200. -/
theorem analyzeWater_isOk (s : ServerState) (ha : s.session.active = true)
    (hn : BATCH_SIZE ≤ s.sessionReadings.length) :
    (analyzeWater s).1.isOk = true := by
  simp only [analyzeWater, ha, Bool.not_true, Bool.false_eq_true, if_false,
    not_lt.mpr hn, if_false]
  cases hi :
      isReusable (computeAverage s.sessionReadings).ph
        (computeAverage s.sessionReadings).turbidity
        (computeAverage s.sessionReadings).tds <;>
    simp [hi, AnalyzeResult.isOk]

/-- The `reusable` field a successful analysis reports. -/
theorem analyzeWater_reusable (s : ServerState) (ha : s.session.active = true)
    (hn : BATCH_SIZE ≤ s.sessionReadings.length) :
    (analyzeWater s).1.reportedReusable =
      some (if isReusable (computeAverage s.sessionReadings).ph
              (computeAverage s.sessionReadings).turbidity
              (computeAverage s.sessionReadings).tds
            then "YES" else "NO") := by
  simp only [analyzeWater, ha, Bool.not_true, Bool.false_eq_true, if_false,
    not_lt.mpr hn, if_false]
  cases hi :
      isReusable (computeAverage s.sessionReadings).ph
        (computeAverage s.sessionReadings).turbidity
        (computeAverage s.sessionReadings).tds <;>
    simp [hi, AnalyzeResult.reportedReusable]

/-- The `tank` field a successful analysis reports. -/
theorem analyzeWater_tank (s : ServerState) (ha : s.session.active = true)
    (hn : BATCH_SIZE ≤ s.sessionReadings.length) :
    (analyzeWater s).1.reportedTank =
      some (if isReusable (computeAverage s.sessionReadings).ph
              (computeAverage s.sessionReadings).turbidity
              (computeAverage s.sessionReadings).tds
            then "Tank A" else "Tank B") := by
  simp only [analyzeWater, ha, Bool.not_true, Bool.false_eq_true, if_false,
    not_lt.mpr hn, if_false]
  cases hi :
      isReusable (computeAverage s.sessionReadings).ph
        (computeAverage s.sessionReadings).turbidity
        (computeAverage s.sessionReadings).tds <;>
    simp [hi, AnalyzeResult.reportedTank]

/-- The `filtrationBracket` field a successful analysis reports: the
constant F1 on the reusable branch, the classifier otherwise. -/
theorem analyzeWater_bracket (s : ServerState) (ha : s.session.active = true)
    (hn : BATCH_SIZE ≤ s.sessionReadings.length) :
    (analyzeWater s).1.reportedBracket =
      some (if isReusable (computeAverage s.sessionReadings).ph
              (computeAverage s.sessionReadings).turbidity
              (computeAverage s.sessionReadings).tds
            then "F1"
            else filtrationBracket (computeAverage s.sessionReadings).turbidity
                   (computeAverage s.sessionReadings).tds) := by
  simp only [analyzeWater, ha, Bool.not_true, Bool.false_eq_true, if_false,
    not_lt.mpr hn, if_false]
  cases hi :
      isReusable (computeAverage s.sessionReadings).ph
        (computeAverage s.sessionReadings).turbidity
        (computeAverage s.sessionReadings).tds <;>
    simp [hi, AnalyzeResult.reportedBracket]

/-- `filtrationBracket` on genuine numbers: ordered propositional ifs. -/
theorem filtrationBracket_some (t d : ℚ) :
    filtrationBracket (some t) (some d) =
      if 1500 < d then "F5"
      else if 1000 ≤ d then "F4"
      else if 30 < t then "F3"
      else if 10 < t then "F2"
      else "F1" := by
  simp [filtrationBracket, jsGt, jsGe]

/-- A non-empty batch averages to genuine numbers in every field. -/
theorem computeAverage_fields_some (readings : List SensorReading) (h : readings ≠ []) :
    ∃ p t d : ℚ, computeAverage readings =
      { ph := some p, turbidity := some t, tds := some d } := by
  rw [computeAverage_eq readings h]
  exact ⟨_, _, _, rfl⟩

/-- Averaging the full batch of identical readings in `mkState`. -/
theorem computeAverage_mkState (p t d : ℚ) :
    computeAverage (mkState p t d).sessionReadings =
      { ph := some (round2 p), turbidity := some (round2 t), tds := some ((round d : ℤ) : ℚ) } :=
  computeAverage_replicate _ BATCH_SIZE (by decide)

/-- `analyzeWater_reusable` restated through an explicit average. -/
theorem analyzeWater_reusable_of_avg (s : ServerState) (ha : s.session.active = true)
    (hn : BATCH_SIZE ≤ s.sessionReadings.length) (p t d : ℚ)
    (havg : computeAverage s.sessionReadings
      = { ph := some p, turbidity := some t, tds := some d }) :
    (analyzeWater s).1.reportedReusable
      = some (if isReusable (some p) (some t) (some d) then "YES" else "NO") := by
  have h := analyzeWater_reusable s ha hn
  rw [havg] at h
  exact h

/-- `analyzeWater_tank` restated through an explicit average. -/
theorem analyzeWater_tank_of_avg (s : ServerState) (ha : s.session.active = true)
    (hn : BATCH_SIZE ≤ s.sessionReadings.length) (p t d : ℚ)
    (havg : computeAverage s.sessionReadings
      = { ph := some p, turbidity := some t, tds := some d }) :
    (analyzeWater s).1.reportedTank
      = some (if isReusable (some p) (some t) (some d) then "Tank A" else "Tank B") := by
  have h := analyzeWater_tank s ha hn
  rw [havg] at h
  exact h

/-- `analyzeWater_bracket` restated through an explicit average. -/
theorem analyzeWater_bracket_of_avg (s : ServerState) (ha : s.session.active = true)
    (hn : BATCH_SIZE ≤ s.sessionReadings.length) (p t d : ℚ)
    (havg : computeAverage s.sessionReadings
      = { ph := some p, turbidity := some t, tds := some d }) :
    (analyzeWater s).1.reportedBracket
      = some (if isReusable (some p) (some t) (some d) then "F1"
              else filtrationBracket (some t) (some d)) := by
  have h := analyzeWater_bracket s ha hn
  rw [havg] at h
  exact h

/-! ## Claims -/

/-- C1: with an active, uncompleted session, a full batch makes
`analyzeWater` succeed and mark the session completed and inactive, and
an immediately following second call fails; a batch below the batch
size fails with the insufficient-data error carrying the required and
current counts.  Hence analysis succeeds at most once per collected
batch. -/
theorem C1_analyze_at_most_once (s : ServerState)
    (ha : s.session.active = true) (_hc : s.session.completed = false) :
    (s.sessionReadings.length = BATCH_SIZE →
      (analyzeWater s).1.isOk = true ∧
      (analyzeWater s).2.session.completed = true ∧
      (analyzeWater s).2.session.active = false ∧
      (analyzeWater (analyzeWater s).2).1 = .errNotStarted) ∧
    (s.sessionReadings.length < BATCH_SIZE →
      (analyzeWater s).1 = .errInsufficient BATCH_SIZE s.sessionReadings.length) := by
  constructor
  · intro hfull
    have hn : BATCH_SIZE ≤ s.sessionReadings.length := le_of_eq hfull.symm
    refine ⟨analyzeWater_isOk s ha hn, ?_, ?_, ?_⟩
    · rw [analyzeWater_state s ha hn]
    · rw [analyzeWater_state s ha hn]
    · rw [analyzeWater_state s ha hn, analyzeWater_not_active _ rfl]
  · intro hlt
    rw [analyzeWater_insufficient s ha hlt]

/-- C1 witness: a full-batch COLLECTING session at concrete values. -/
theorem C1_analyze_at_most_once_witness :
    ((mkState 7 5 300).sessionReadings.length = BATCH_SIZE →
      (analyzeWater (mkState 7 5 300)).1.isOk = true ∧
      (analyzeWater (mkState 7 5 300)).2.session.completed = true ∧
      (analyzeWater (mkState 7 5 300)).2.session.active = false ∧
      (analyzeWater (analyzeWater (mkState 7 5 300)).2).1 = .errNotStarted) ∧
    ((mkState 7 5 300).sessionReadings.length < BATCH_SIZE →
      (analyzeWater (mkState 7 5 300)).1
        = .errInsufficient BATCH_SIZE (mkState 7 5 300).sessionReadings.length) :=
  C1_analyze_at_most_once (mkState 7 5 300) rfl rfl

/-- C4: the claim's inclusive F4 floor (tds = 1000 yields F4) holds for
`filtrationBracket`, but the `FILTRATION_RULES` table checks
`tds > 1000` strictly, so at turbidity 0, tds 1000 the table falls
through to F1 — the two classifiers diverge at exactly the documented
boundary. -/
theorem C4_f4_floor_divergence :
    filtrationBracket (some 0) (some 1000) = "F4" ∧
    (Standalone.selectFiltration 0 1000).bracket = "F1" :=
  ⟨by decide, by decide⟩

/-- C6: `fetchCommand` delivers a queued command exactly once — an
empty or already-delivered slot answers none and is left unchanged,
while a queued undelivered command is returned and marked delivered in
the same step, so an immediately following fetch answers none. -/
theorem C6_fetch_exactly_once (p : Dispatcher.PendingCommand) :
    ((p.command = none ∨ p.delivered = true) → Dispatcher.fetchCommand p = (none, p)) ∧
    (∀ c : Dispatcher.PumpCommand, p.command = some c → p.delivered = false →
      (Dispatcher.fetchCommand p).1 = some c ∧
      (Dispatcher.fetchCommand p).2 = { command := some c, delivered := true } ∧
      (Dispatcher.fetchCommand (Dispatcher.fetchCommand p).2).1 = none) := by
  obtain ⟨cmd, del⟩ := p
  constructor
  · rintro (h | h)
    · simp only at h
      subst h
      simp [Dispatcher.fetchCommand]
    · simp only at h
      subst h
      cases cmd <;> simp [Dispatcher.fetchCommand]
  · rintro c hc hd
    simp only at hc hd
    subst hc
    subst hd
    simp [Dispatcher.fetchCommand]

/-- C6 witness: a freshly queued command at a concrete slot. -/
theorem C6_fetch_exactly_once_witness :
    ((({ command := some .START_PUMP_A, delivered := false } :
          Dispatcher.PendingCommand).command = none ∨
      ({ command := some .START_PUMP_A, delivered := false } :
          Dispatcher.PendingCommand).delivered = true) →
      Dispatcher.fetchCommand { command := some .START_PUMP_A, delivered := false }
        = (none, { command := some .START_PUMP_A, delivered := false })) ∧
    (∀ c : Dispatcher.PumpCommand,
      ({ command := some .START_PUMP_A, delivered := false } :
          Dispatcher.PendingCommand).command = some c →
      ({ command := some .START_PUMP_A, delivered := false } :
          Dispatcher.PendingCommand).delivered = false →
      (Dispatcher.fetchCommand { command := some .START_PUMP_A, delivered := false }).1
          = some c ∧
      (Dispatcher.fetchCommand { command := some .START_PUMP_A, delivered := false }).2
          = { command := some c, delivered := true } ∧
      (Dispatcher.fetchCommand
          (Dispatcher.fetchCommand
            { command := some .START_PUMP_A, delivered := false }).2).1 = none) :=
  C6_fetch_exactly_once { command := some .START_PUMP_A, delivered := false }

/-- C7: on every non-empty batch the average is the per-field
arithmetic mean, with pH and turbidity rounded to two decimal places
and tds rounded to the nearest integer. -/
theorem C7_average_is_rounded_mean (readings : List SensorReading) (h : readings ≠ []) :
    computeAverage readings =
      { ph := some (round2 ((readings.map SensorReading.ph).sum / readings.length))
        turbidity := some (round2 ((readings.map SensorReading.turbidity).sum / readings.length))
        tds := some ((round ((readings.map SensorReading.tds).sum / readings.length) : ℤ) : ℚ) } :=
  computeAverage_eq readings h

/-- C7 witness: a concrete two-reading batch. -/
theorem C7_average_is_rounded_mean_witness :
    computeAverage [⟨7, 10, 1000, 0⟩, ⟨8, 21, 1001, 0⟩] =
      { ph := some (round2 ((([⟨7, 10, 1000, 0⟩, ⟨8, 21, 1001, 0⟩] :
            List SensorReading).map SensorReading.ph).sum /
            ([⟨7, 10, 1000, 0⟩, ⟨8, 21, 1001, 0⟩] : List SensorReading).length))
        turbidity := some (round2 ((([⟨7, 10, 1000, 0⟩, ⟨8, 21, 1001, 0⟩] :
            List SensorReading).map SensorReading.turbidity).sum /
            ([⟨7, 10, 1000, 0⟩, ⟨8, 21, 1001, 0⟩] : List SensorReading).length))
        tds := some ((round ((([⟨7, 10, 1000, 0⟩, ⟨8, 21, 1001, 0⟩] :
            List SensorReading).map SensorReading.tds).sum /
            ([⟨7, 10, 1000, 0⟩, ⟨8, 21, 1001, 0⟩] : List SensorReading).length) : ℤ) : ℚ) } :=
  C7_average_is_rounded_mean [⟨7, 10, 1000, 0⟩, ⟨8, 21, 1001, 0⟩] (by simp)

/-- C8: on zero readings the sessionful `computeAverage` does not fail
with a defensive empty-batch error — it divides by zero and returns a
record whose fields are all NaN — whereas the windowed variant's
guarded `computeAverage` returns null. -/
theorem C8_empty_batch_not_defensive :
    computeAverage [] = { ph := none, turbidity := none, tds := none } ∧
    Windowed.computeAverage [] = none :=
  ⟨by decide, by decide⟩

/-- C10: whenever `analyzeWater` answers one of its errors, the shared
state — session flags, start time and the collected batch — is exactly
as before the call. -/
theorem C10_error_leaves_state (s : ServerState)
    (h : (analyzeWater s).1.isOk = false) :
    (analyzeWater s).2 = s := by
  by_cases ha : s.session.active = true
  · by_cases hl : s.sessionReadings.length < BATCH_SIZE
    · rw [analyzeWater_insufficient s ha hl]
    · exact absurd (analyzeWater_isOk s ha (not_lt.mp hl)) (by simp [h])
  · rw [analyzeWater_not_active s (by simpa using ha)]

/-- C10 witness: analysis against the inactive initial state errs and
leaves the state unchanged. -/
theorem C10_error_leaves_state_witness :
    (analyzeWater initialState).2 = initialState :=
  C10_error_leaves_state initialState (by decide)

/-- C2 counterexample: from the initial state, start a session and let
eleven well-typed readings arrive; every one is appended, so the
reachable batch length 11 exceeds the batch size 10 — the claimed
capacity bound fails and the eleventh ingest was no rejection. -/
theorem C2_counterexample :
    ((fun s => (ingest s 7 5 300 0).2)^[11] (startSession initialState 0)).sessionReadings.length
        = BATCH_SIZE + 1 ∧
    BATCH_SIZE <
      ((fun s => (ingest s 7 5 300 0).2)^[11]
        (startSession initialState 0)).sessionReadings.length :=
  ⟨by decide, by decide⟩

/-- C2 amended: ingest performs no capacity check — in a COLLECTING
session whose batch already holds the batch size (or more), the reading
is still appended, so the batch length is not bounded by the batch size
but only by the number of COLLECTING-phase ingest calls. -/
theorem C2_amended_no_capacity_bound (s : ServerState) (p t d : ℚ) (now : ℤ)
    (ha : s.session.active = true) (hc : s.session.completed = false)
    (hfull : BATCH_SIZE ≤ s.sessionReadings.length) :
    (ingest s p t d now).2.sessionReadings.length = s.sessionReadings.length + 1 ∧
    BATCH_SIZE < (ingest s p t d now).2.sessionReadings.length := by
  have happ : (ingest s p t d now).2.sessionReadings
      = s.sessionReadings ++ [{ ph := p, turbidity := t, tds := d, timestamp := now }] := by
    simp [ingest, ha, hc]
  rw [happ, List.length_append]
  exact ⟨rfl, Nat.lt_succ_of_le hfull⟩

/-- C2 amended witness: an ingest into a concrete full batch. -/
theorem C2_amended_no_capacity_bound_witness :
    (ingest (mkState 8 6 400) 7 5 300 0).2.sessionReadings.length
        = (mkState 8 6 400).sessionReadings.length + 1 ∧
    BATCH_SIZE < (ingest (mkState 8 6 400) 7 5 300 0).2.sessionReadings.length :=
  C2_amended_no_capacity_bound (mkState 8 6 400) 7 5 300 0 rfl rfl (by decide)

/-- C3 counterexample: at a COLLECTING session whose batch is already
at the batch size, a well-typed ingest still appends the reading (and
still answers `received`) — "appended only if the batch is not yet
full" fails, and no rejection reason is reported. -/
theorem C3_counterexample :
    (mkState 7 5 300).sessionReadings.length = BATCH_SIZE ∧
    (mkState 7 5 300).session.active = true ∧
    (mkState 7 5 300).session.completed = false ∧
    (ingest (mkState 7 5 300) 7 5 300 0).2.sessionReadings.length = BATCH_SIZE + 1 ∧
    (ingest (mkState 7 5 300) 7 5 300 0).1.status = "received" :=
  ⟨by decide, by decide, by decide, by decide, by decide⟩

/-- C3 amended: a well-typed reading is appended iff the session is
active and not completed — batch fullness is never consulted — and in
every other state the call is a no-op that still answers `received`
with the current session flag and count; the response carries no
rejection-reason field at all. -/
theorem C3_amended_ingest_iff_collecting (s : ServerState) (p t d : ℚ) (now : ℤ) :
    (ingest s p t d now).1.status = "received" ∧
    (s.session.active = true ∧ s.session.completed = false →
      (ingest s p t d now).2.sessionReadings
        = s.sessionReadings ++ [{ ph := p, turbidity := t, tds := d, timestamp := now }]) ∧
    (¬(s.session.active = true ∧ s.session.completed = false) →
      (ingest s p t d now).2 = s ∧
      (ingest s p t d now).1.sessionActive = s.session.active ∧
      (ingest s p t d now).1.sessionCount = s.sessionReadings.length) := by
  refine ⟨rfl, ?_, ?_⟩
  · rintro ⟨ha, hc⟩
    simp [ingest, ha, hc]
  · intro h
    have hcond : (s.session.active && !s.session.completed) = false := by
      cases hA : s.session.active <;> cases hC : s.session.completed <;> simp_all
    simp [ingest, hcond]

/-- C3 amended witness: a completed, inactive session rejects silently;
the same call in a COLLECTING session appends. -/
theorem C3_amended_ingest_iff_collecting_witness :
    (ingest initialState 7 5 300 0).1.status = "received" ∧
    (initialState.session.active = true ∧ initialState.session.completed = false →
      (ingest initialState 7 5 300 0).2.sessionReadings
        = initialState.sessionReadings
            ++ [{ ph := 7, turbidity := 5, tds := 300, timestamp := 0 }]) ∧
    (¬(initialState.session.active = true ∧ initialState.session.completed = false) →
      (ingest initialState 7 5 300 0).2 = initialState ∧
      (ingest initialState 7 5 300 0).1.sessionActive = initialState.session.active ∧
      (ingest initialState 7 5 300 0).1.sessionCount
        = initialState.sessionReadings.length) :=
  C3_amended_ingest_iff_collecting initialState 7 5 300 0

/-- C5 counterexample: a full batch averaging pH 5, turbidity 5, tds
300 has bracket F1 reported, yet the verdict is non-reusable with Tank
B — the out-of-range pH decides, so reusable ≠ (bracket ∈ {F1, F2}). -/
theorem C5_counterexample :
    (analyzeWater (mkState 5 5 300)).1.reportedReusable = some "NO" ∧
    (analyzeWater (mkState 5 5 300)).1.reportedTank = some "Tank B" ∧
    (analyzeWater (mkState 5 5 300)).1.reportedBracket = some "F1" ∧
    ¬((analyzeWater (mkState 5 5 300)).1.reportedReusable = some "YES" ↔
      ((analyzeWater (mkState 5 5 300)).1.reportedBracket = some "F1" ∨
       (analyzeWater (mkState 5 5 300)).1.reportedBracket = some "F2")) := by
  have havg : computeAverage (mkState 5 5 300).sessionReadings =
      { ph := some 5, turbidity := some 5, tds := some 300 } := by
    rw [computeAverage_mkState]
    norm_num [round2, round_eq]
  have hfalse : isReusable (some (5 : ℚ)) (some 5) (some 300) = false := by
    rw [Bool.eq_false_iff, Ne, isReusable_iff]
    rintro ⟨h1, -, -, -⟩
    norm_num at h1
  have hr := analyzeWater_reusable_of_avg (mkState 5 5 300) rfl (by decide) 5 5 300 havg
  have ht := analyzeWater_tank_of_avg (mkState 5 5 300) rfl (by decide) 5 5 300 havg
  have hb := analyzeWater_bracket_of_avg (mkState 5 5 300) rfl (by decide) 5 5 300 havg
  rw [hfalse] at hr ht hb
  simp only [Bool.false_eq_true, if_false] at hr ht hb
  rw [filtrationBracket_some] at hb
  norm_num at hb
  refine ⟨hr, ht, hb, ?_⟩
  rw [hr, hb]
  decide

/-- C5 amended: the reported verdict is `isReusable` applied to the
batch-average pH, turbidity and tds — so pH does influence it — the
tank is A exactly when the verdict is reusable and B otherwise, and a
reusable result reports the constant bracket F1 rather than the
classifier's output. -/
theorem C5_amended_verdict_uses_ph (s : ServerState)
    (ha : s.session.active = true) (hn : BATCH_SIZE ≤ s.sessionReadings.length) :
    (analyzeWater s).1.reportedReusable
      = some (if isReusable (computeAverage s.sessionReadings).ph
                (computeAverage s.sessionReadings).turbidity
                (computeAverage s.sessionReadings).tds then "YES" else "NO") ∧
    (analyzeWater s).1.reportedTank
      = some (if isReusable (computeAverage s.sessionReadings).ph
                (computeAverage s.sessionReadings).turbidity
                (computeAverage s.sessionReadings).tds then "Tank A" else "Tank B") ∧
    (analyzeWater s).1.reportedBracket
      = some (if isReusable (computeAverage s.sessionReadings).ph
                (computeAverage s.sessionReadings).turbidity
                (computeAverage s.sessionReadings).tds then "F1"
              else filtrationBracket (computeAverage s.sessionReadings).turbidity
                     (computeAverage s.sessionReadings).tds) :=
  ⟨analyzeWater_reusable s ha hn, analyzeWater_tank s ha hn, analyzeWater_bracket s ha hn⟩

/-- C5 amended witness: the concrete full-batch state of pH 7. -/
theorem C5_amended_verdict_uses_ph_witness :
    (analyzeWater (mkState 7 5 300)).1.reportedReusable
      = some (if isReusable (computeAverage (mkState 7 5 300).sessionReadings).ph
                (computeAverage (mkState 7 5 300).sessionReadings).turbidity
                (computeAverage (mkState 7 5 300).sessionReadings).tds
              then "YES" else "NO") ∧
    (analyzeWater (mkState 7 5 300)).1.reportedTank
      = some (if isReusable (computeAverage (mkState 7 5 300).sessionReadings).ph
                (computeAverage (mkState 7 5 300).sessionReadings).turbidity
                (computeAverage (mkState 7 5 300).sessionReadings).tds
              then "Tank A" else "Tank B") ∧
    (analyzeWater (mkState 7 5 300)).1.reportedBracket
      = some (if isReusable (computeAverage (mkState 7 5 300).sessionReadings).ph
                (computeAverage (mkState 7 5 300).sessionReadings).turbidity
                (computeAverage (mkState 7 5 300).sessionReadings).tds
              then "F1"
              else filtrationBracket
                     (computeAverage (mkState 7 5 300).sessionReadings).turbidity
                     (computeAverage (mkState 7 5 300).sessionReadings).tds) :=
  C5_amended_verdict_uses_ph (mkState 7 5 300) rfl (by decide)

/-- C9 counterexample: two full batches with identical average
turbidity 5 and tds 1000 but pH 7 versus pH 5 are reported bracket F1
versus F4 — the bracket in the analysis result does depend on pH. -/
theorem C9_counterexample :
    (computeAverage (mkState 7 5 1000).sessionReadings).turbidity
        = (computeAverage (mkState 5 5 1000).sessionReadings).turbidity ∧
    (computeAverage (mkState 7 5 1000).sessionReadings).tds
        = (computeAverage (mkState 5 5 1000).sessionReadings).tds ∧
    (analyzeWater (mkState 7 5 1000)).1.reportedBracket = some "F1" ∧
    (analyzeWater (mkState 5 5 1000)).1.reportedBracket = some "F4" := by
  have hA : computeAverage (mkState 7 5 1000).sessionReadings =
      { ph := some 7, turbidity := some 5, tds := some 1000 } := by
    rw [computeAverage_mkState]
    norm_num [round2, round_eq]
  have hB : computeAverage (mkState 5 5 1000).sessionReadings =
      { ph := some 5, turbidity := some 5, tds := some 1000 } := by
    rw [computeAverage_mkState]
    norm_num [round2, round_eq]
  have htrue : isReusable (some (7 : ℚ)) (some 5) (some 1000) = true := by
    rw [isReusable_iff]
    norm_num
  have hfalse : isReusable (some (5 : ℚ)) (some 5) (some 1000) = false := by
    rw [Bool.eq_false_iff, Ne, isReusable_iff]
    rintro ⟨h1, -, -, -⟩
    norm_num at h1
  have hb1 := analyzeWater_bracket_of_avg (mkState 7 5 1000) rfl (by decide) 7 5 1000 hA
  have hb2 := analyzeWater_bracket_of_avg (mkState 5 5 1000) rfl (by decide) 5 5 1000 hB
  rw [htrue] at hb1
  rw [hfalse] at hb2
  simp only [if_true, Bool.false_eq_true, if_false] at hb1 hb2
  rw [filtrationBracket_some] at hb2
  norm_num at hb2
  refine ⟨?_, ?_, hb1, hb2⟩
  · rw [hA, hB]
  · rw [hA, hB]

/-- C9 amended: the pure classifier `filtrationBracket` takes no pH at
all, and the bracket reported by two analyses agreeing on average
turbidity and tds is the same whenever the average tds is not exactly
1000; at tds = 1000 the pH-dependent reusable shortcut can report F1
where the classifier says F4. -/
theorem C9_amended_bracket_ph_independent_off_boundary (s₁ s₂ : ServerState)
    (ha₁ : s₁.session.active = true) (hn₁ : BATCH_SIZE ≤ s₁.sessionReadings.length)
    (ha₂ : s₂.session.active = true) (hn₂ : BATCH_SIZE ≤ s₂.sessionReadings.length)
    (ht : (computeAverage s₁.sessionReadings).turbidity
        = (computeAverage s₂.sessionReadings).turbidity)
    (hd : (computeAverage s₁.sessionReadings).tds
        = (computeAverage s₂.sessionReadings).tds)
    (hne : (computeAverage s₁.sessionReadings).tds ≠ some 1000) :
    (analyzeWater s₁).1.reportedBracket = (analyzeWater s₂).1.reportedBracket := by
  have hnil₁ : s₁.sessionReadings ≠ [] := by
    intro he
    rw [he] at hn₁
    simp [BATCH_SIZE] at hn₁
  have hnil₂ : s₂.sessionReadings ≠ [] := by
    intro he
    rw [he] at hn₂
    simp [BATCH_SIZE] at hn₂
  obtain ⟨p₁, t₁, d₁, hA₁⟩ := computeAverage_fields_some s₁.sessionReadings hnil₁
  obtain ⟨p₂, t₂, d₂, hA₂⟩ := computeAverage_fields_some s₂.sessionReadings hnil₂
  rw [hA₁, hA₂] at ht hd
  simp only [Option.some.injEq] at ht hd
  subst ht
  subst hd
  rw [hA₁] at hne
  simp only [ne_eq, Option.some.injEq] at hne
  rw [analyzeWater_bracket_of_avg s₁ ha₁ hn₁ p₁ t₁ d₁ hA₁,
      analyzeWater_bracket_of_avg s₂ ha₂ hn₂ p₂ t₁ d₁ hA₂]
  by_cases h1 : isReusable (some p₁) (some t₁) (some d₁) = true <;>
    by_cases h2 : isReusable (some p₂) (some t₁) (some d₁) = true
  · rw [if_pos h1, if_pos h2]
  · rw [if_pos h1, if_neg h2]
    rw [isReusable_iff] at h1
    obtain ⟨-, -, ht10, hd1000⟩ := h1
    have hdlt : d₁ < 1000 := lt_of_le_of_ne hd1000 hne
    rw [filtrationBracket_some, if_neg (by linarith), if_neg (by linarith),
      if_neg (by linarith), if_neg (by linarith)]
  · rw [if_neg h1, if_pos h2]
    rw [isReusable_iff] at h2
    obtain ⟨-, -, ht10, hd1000⟩ := h2
    have hdlt : d₁ < 1000 := lt_of_le_of_ne hd1000 hne
    rw [filtrationBracket_some, if_neg (by linarith), if_neg (by linarith),
      if_neg (by linarith), if_neg (by linarith)]
  · rw [if_neg h1, if_neg h2]

/-- C9 amended witness: pH 7 versus pH 5 over identical turbidity 5 and
tds 300 — both report bracket F1. -/
theorem C9_amended_bracket_ph_independent_off_boundary_witness :
    (analyzeWater (mkState 7 5 300)).1.reportedBracket
      = (analyzeWater (mkState 5 5 300)).1.reportedBracket :=
  C9_amended_bracket_ph_independent_off_boundary (mkState 7 5 300) (mkState 5 5 300)
    rfl (by decide) rfl (by decide)
    (by simp [computeAverage_mkState])
    (by simp [computeAverage_mkState])
    (by simp [computeAverage_mkState])

end WaterQuality
